import Mathlib

/-!
Shallow embedding of `scripts/strict_check.py` (editor-layer-index strict source
checker) and proofs about it.

Conventions of the embedding:
* Python strings are Lean `String`s (a structure holding a `List Char`), and the
  string operations used by the script (`split`, `upper`, `lower`, `in`
  (substring), `<`, `','.join`, `*`) are re-implemented below on the char list,
  following CPython semantics for ASCII data.
* Python dicts are association lists `List (K × V)` with insertion-ordered
  upsert (`dictUpsert`): assignment overwrites the value in place, lookup finds
  the unique binding.  Python sets of strings are duplicate-free `List String`
  built with `setAdd` (membership is all the script ever uses, plus a sort for
  messages).
* XML documents (already parsed by `xml.etree.ElementTree`, an external
  collaborator) are values of the mutually inductive `XElem`/`XList` tree; an
  unparseable document is represented by `none : Option XElem`.
* Network I/O is abstracted: a WMS GetCapabilities server is a function from
  the requested version (and `map` parameter) to `Except String Wms`
  (exception text or parsed capabilities), and a TMS tile server is a
  reachability predicate `Int → Bool` on zoom levels.
* Python exceptions other than the `RuntimeError`s deliberately raised by
  `parse_wms` (AttributeError from `None.upper()`, KeyError from missing dict
  keys, TypeError from `str.join` over `None`) are modelled as explicit error
  values.
-/

/-- Character code of the closing curly brace (used by the namespace stripper). -/
def rbraceChar : Char := Char.ofNat 125

/-- Python `str.upper()` restricted to ASCII (all data handled by the script is ASCII). -/
def pyUpper (s : String) : String := ⟨s.data.map Char.toUpper⟩

/-- Python `str.lower()` restricted to ASCII. -/
def pyLower (s : String) : String := ⟨s.data.map Char.toLower⟩

/-- Python `str.split(sep)` for a one-character separator, on char lists.
`''.split(',') = ['']`, `',,'.split(',') = ['', '', '']`. -/
def splitCh (sep : Char) : List Char → List (List Char)
  | [] => [[]]
  | c :: rest =>
    if c = sep then [] :: splitCh sep rest
    else
      match splitCh sep rest with
      | [] => [[c]]
      | t :: ts => (c :: t) :: ts

/-- Python `str.split(sep)` for a one-character separator. -/
def pySplit (s : String) (sep : Char) : List String :=
  (splitCh sep s.data).map (fun l => ⟨l⟩)

/-- Python `s * n` for strings: `n` copies concatenated. -/
def strRepeat (s : String) : Nat → String
  | 0 => ""
  | n + 1 => s ++ strRepeat s n

/-- Check that `n` is a leading segment of `h` (helper for substring search). -/
def leadEq [DecidableEq α] : List α → List α → Bool
  | [], _ => true
  | _ :: _, [] => false
  | a :: as, b :: bs => a = b && leadEq as bs

/-- Check that `n` occurs as a contiguous segment of `h` (helper for Python `in`). -/
def segIn [DecidableEq α] (n : List α) : List α → Bool
  | [] => leadEq n []
  | b :: bs => leadEq n (b :: bs) || segIn n bs

/-- Python `needle in haystack` for strings (substring containment). -/
def pyContains (needle hay : String) : Bool := segIn needle.data hay.data

/-- Python `a < b` on strings: lexicographic comparison of code points. -/
def pyListLt : List Char → List Char → Bool
  | [], [] => false
  | [], _ :: _ => true
  | _ :: _, [] => false
  | a :: as, b :: bs => if a = b then pyListLt as bs else decide (a < b)

/-- Python `a < b` on strings. -/
def pyStrLt (a b : String) : Bool := pyListLt a.data b.data

/-- Python dict assignment `d[k] = v`: overwrite in place if the key exists,
else append the new binding. -/
def dictUpsert [DecidableEq K] (d : List (K × V)) (k : K) (v : V) : List (K × V) :=
  match d with
  | [] => [(k, v)]
  | (k', v') :: rest => if k' = k then (k, v) :: rest else (k', v') :: dictUpsert rest k v

/-- Python dict lookup `d[k]` (as an `Option`). -/
def dictLookup [DecidableEq K] (d : List (K × V)) (k : K) : Option V :=
  (d.find? (fun p => p.1 = k)).map (fun p => p.2)

/-- Python `k in d` for dicts. -/
def dictMem [DecidableEq K] (d : List (K × V)) (k : K) : Bool :=
  (d.find? (fun p => p.1 = k)).isSome

/-- Python `set.add`: sets of strings as duplicate-free lists in insertion order. -/
def setAdd (s : List String) (x : String) : List String :=
  if x ∈ s then s else s ++ [x]

/-- Python `str.rpartition(sep)[-1]` for the one-character separator `}`:
everything after the last closing brace (the whole string when there is none).
This is how both the `iterparse` loop and the root-tag check of `parse_wms`
strip XML namespace prefixes. -/
def stripNs (s : String) : String :=
  ⟨(s.data.reverse.takeWhile (fun c => c ≠ rbraceChar)).reverse⟩

mutual
/-- An XML element as seen through `xml.etree.ElementTree`: tag, attributes,
text content (`None` when absent) and child elements in document order. -/
inductive XElem where
  | mk (tag : String) (attrs : List (String × String)) (text : Option String) (children : XList)
/-- A list of XML elements (mutual with `XElem` so that the recursive functions
below are structural and compute by `decide`/`rfl`). -/
inductive XList where
  | nil
  | cons (head : XElem) (tail : XList)
end

/-- Tag of an element. -/
def XElem.tag : XElem → String
  | .mk t _ _ _ => t

/-- Attribute dictionary of an element. -/
def XElem.attrs : XElem → List (String × String)
  | .mk _ a _ _ => a

/-- Text content of an element (`None` = no text). -/
def XElem.text : XElem → Option String
  | .mk _ _ tx _ => tx

/-- Children of an element. -/
def XElem.children : XElem → XList
  | .mk _ _ _ cs => cs

/-- Convert an `XList` to an ordinary list. -/
def XList.toList : XList → List XElem
  | .nil => []
  | .cons e rest => e :: rest.toList

mutual
/-- An element followed by all its descendants, in document (preorder) order. -/
def XElem.selfDesc : XElem → List XElem
  | .mk t a tx cs => .mk t a tx cs :: XList.descAll cs
/-- All elements of the list and their descendants, in document order; applied
to `root.children` this is ElementTree's `root.iter()` minus the root, i.e.
the scope of a `.//` path. -/
def XList.descAll : XList → List XElem
  | .nil => []
  | .cons e rest => e.selfDesc ++ rest.descAll
end

mutual
/-- Strip namespace prefixes from every tag, as the `iterparse` loop of
`parse_wms` does (`el.tag = el.tag.rpartition(\x7d)[-1]` for every element). -/
def stripTagsE : XElem → XElem
  | .mk t a tx cs => .mk (stripNs t) a tx (stripTagsL cs)
/-- Strip namespace prefixes in a list of elements. -/
def stripTagsL : XList → XList
  | .nil => .nil
  | .cons e rest => .cons (stripTagsE e) (stripTagsL rest)
end

/-- ElementTree `element.findall("./tag")`: the children carrying a given tag. -/
def childrenTagged (e : XElem) (t : String) : List XElem :=
  e.children.toList.filter (fun c => c.tag = t)

/-- ElementTree `element.find("./tag")`: the first child carrying a given tag. -/
def findChild (e : XElem) (t : String) : Option XElem :=
  (childrenTagged e t).head?

/-- Texts of all children carrying a given tag. -/
def getTexts (e : XElem) (t : String) : List (Option String) :=
  (childrenTagged e t).map (fun c => c.text)

/-- Python exceptions that the body of `parse_wms` (layer/style parsing) can
raise besides the explicit `RuntimeError`s: `AttributeError` from
`e.text.upper()` when a `CRS`/`SRS` element has no text, and `KeyError` from
`new_style['Name']` when a `Style` element has no `Name` child. -/
inductive BodyErr where
  | attrError
  | keyError
deriving DecidableEq, Repr

/-- Failure modes of `parse_wms`: the four `RuntimeError`s it raises itself
(unparseable XML, service exception root, unexpected root tag, missing
`version` attribute) plus the uncaught Python exceptions of its body. -/
inductive PyErr where
  | parseError
  | serviceError
  | protocolError (rootTag : String)
  | versionError
  | body (e : BodyErr)
deriving DecidableEq, Repr

/-- One entry of a layer's `Styles` dict: `new_style` has a `Title` key iff a
`Title` child was found (holding its text, possibly `None`) and a `Name` key
holding the `Name` child's text. -/
structure WmsStyle where
  title : Option (Option String)
  name : Option String
deriving DecidableEq, Repr

/-- One parsed WMS layer (`new_layer`).  `name`/`title`/`abstract` are present
iff the corresponding child element was found, and hold its text (possibly
`None`).  `CRS` is the accumulated CRS set, `Styles` the accumulated style
dict keyed by the style's `Name` text. -/
structure WmsLayer where
  name : Option (Option String)
  title : Option (Option String)
  abstract : Option (Option String)
  CRS : List String
  Styles : List (Option String × WmsStyle)
deriving DecidableEq, Repr

/-- Result of `parse_wms`: version string, named layers (keyed by the `Name`
element's text), GetMap formats (texts, possibly `None`, in document order). -/
structure Wms where
  version : String
  layers : List (Option String × WmsLayer)
  formats : List (Option String)
deriving DecidableEq, Repr

/-- Registrations produced by one `parse_layer` call: the layer's own entry in
the `layers` dict (when it has a `Name`) and the entries of its descendants,
in registration order. -/
structure LayerRegs where
  own : Option (Option String × WmsLayer)
  descs : List (Option String × WmsLayer)
deriving DecidableEq, Repr

/-- The CRS/SRS accumulation loop of `parse_layer`:
`new_layer['CRS'].add(e.text.upper())` for each `CRS`/`SRS` child text, raising
`AttributeError` when a text is `None`. -/
def collectCrsGo : List (Option String) → List String → Except BodyErr (List String)
  | [], acc => .ok acc
  | none :: _, _ => .error .attrError
  | some t :: rest, acc => collectCrsGo rest (setAdd acc (pyUpper t))

/-- Parse one `Style` child of a layer: collect `Title`/`Name` texts; raise
`KeyError` when there is no `Name` child (`new_style['Name']`). -/
def parseStyleElem (e : XElem) : Except BodyErr (Option String × WmsStyle) :=
  let title := (findChild e "Title").map (fun el => el.text)
  match findChild e "Name" with
  | none => .error .keyError
  | some ne => .ok (ne.text, ⟨title, ne.text⟩)

/-- The style accumulation loop of `parse_layer`:
`new_layer['Styles'][new_style['Name']] = new_style` for each `Style` child. -/
def collectStylesGo :
    List XElem → List (Option String × WmsStyle) →
    Except BodyErr (List (Option String × WmsStyle))
  | [], acc => .ok acc
  | e :: rest, acc =>
    match parseStyleElem e with
    | .error er => .error er
    | .ok (k, st) => collectStylesGo rest (dictUpsert acc k st)

mutual
/-- `parse_layer(element, crs, styles)` of `parse_wms`, value-level.  Returns
the registrations it performs and the final value of the CRS set object it was
given (`crs` is mutated in place by the `add` calls; each recursive call gets
`new_layer['CRS'].copy()` and `new_layer['Styles']` — the style dict is never
mutated after being passed down, so values model it exactly).  The layer's own
registered entry carries `CRS = crs ∪ own declarations`; for top-level calls
the caller must patch that entry, because the underlying set object is the
shared default argument which keeps being mutated by later top-level calls. -/
def parse_layer : XElem → List String → List (Option String × WmsStyle) →
    Except BodyErr (LayerRegs × List String)
  | .mk t a tx cs, crs, styles =>
    let e : XElem := .mk t a tx cs
    match collectCrsGo (getTexts e "CRS" ++ getTexts e "SRS") crs with
    | .error er => .error er
    | .ok crs' =>
      match collectStylesGo (childrenTagged e "Style") styles with
      | .error er => .error er
      | .ok styles' =>
        let nm := (findChild e "Name").map (fun el => el.text)
        let ti := (findChild e "Title").map (fun el => el.text)
        let ab := (findChild e "Abstract").map (fun el => el.text)
        let layer : WmsLayer := ⟨nm, ti, ab, crs', styles'⟩
        match parseSubLayers cs crs' styles' with
        | .error er => .error er
        | .ok ds => .ok (⟨nm.map (fun k => (k, layer)), ds⟩, crs')
/-- The recursion of `parse_layer` over `element.findall("./Layer")`: each
child `Layer` gets a copy of the accumulated CRS set and the style dict, and
its registrations (own entry, then descendants) are appended in order. -/
def parseSubLayers (l : XList) (crs : List String) (styles : List (Option String × WmsStyle)) :
    Except BodyErr (List (Option String × WmsLayer))
  := match l with
  | .nil => .ok []
  | .cons e rest =>
    if e.tag = "Layer" then
      match parse_layer e crs styles with
      | .error er => .error er
      | .ok (r, _) =>
        match parseSubLayers rest crs styles with
        | .error er => .error er
        | .ok rs => .ok ((r.own.toList ++ r.descs) ++ rs)
    else parseSubLayers rest crs styles
end

/-- The `for top_layer in top_layers: parse_layer(top_layer)` loop.  All calls
share the same default arguments `crs=set()`, `styles=\x7b\x7d` (evaluated once when
the nested `def` runs): the set is threaded through (each top-level call sees
and keeps mutating the same object), while the style dict is never mutated, so
every call sees it empty. -/
def parseTops : List XElem → List String → Except BodyErr (List LayerRegs × List String)
  | [], d => .ok ([], d)
  | t :: rest, d =>
    match parse_layer t d [] with
    | .error er => .error er
    | .ok (r, d') =>
      match parseTops rest d' with
      | .error er => .error er
      | .ok (rs, dFinal) => .ok (r :: rs, dFinal)

/-- Patch a top-level layer's own registration: its stored CRS set is the
shared default-argument object, whose final value is the union over all
top-level layers. -/
def patchTop (r : LayerRegs) (dFinal : List String) : List (Option String × WmsLayer) :=
  (r.own.map (fun kl => (kl.1, { kl.2 with CRS := dFinal }))).toList ++ r.descs

/-- ElementTree `root.findall(".//Capability/Layer")`: the `Layer` children of
every `Capability` descendant, in document order. -/
def findTopLayers (root : XElem) : List XElem :=
  ((XList.descAll root.children).filter (fun e => e.tag = "Capability")).flatMap
    (fun c => childrenTagged c "Layer")

/-- ElementTree `root.findall(".//Capability/Request/GetMap/Format")`, texts in
document order. -/
def findFormats (root : XElem) : List (Option String) :=
  ((XList.descAll root.children).filter (fun e => e.tag = "Capability")).flatMap
    (fun c => (childrenTagged c "Request").flatMap
      (fun r => (childrenTagged r "GetMap").flatMap
        (fun g => getTexts g "Format")))

/-- `parse_wms(xml)`.  The external XML parse (ElementTree `iterparse`) is a
collaborator: its outcome is the input (`none` = not well-formed XML, which the
`except` clause turns into `RuntimeError('Could not parse XML.')`). -/
def parse_wms (doc : Option XElem) : Except PyErr Wms :=
  match doc with
  | none => .error .parseError
  | some root₀ =>
    let root := stripTagsE root₀
    let rootTag := stripNs root.tag
    if rootTag = "ServiceExceptionReport" ∨ rootTag = "ServiceException" then
      .error .serviceError
    else if ¬ (rootTag = "WMT_MS_Capabilities" ∨ rootTag = "WMS_Capabilities") then
      .error (.protocolError rootTag)
    else
      match dictLookup root.attrs "version" with
      | none => .error .versionError
      | some version =>
        match parseTops (findTopLayers root) [] with
        | .error be => .error (.body be)
        | .ok (tregs, dFinal) =>
          let regs := tregs.flatMap (fun r => patchTop r dFinal)
          let layers := regs.foldl (fun d kv => dictUpsert d kv.1 kv.2) []
          .ok ⟨version, layers, findFormats root⟩

deriving instance DecidableEq for Except

/-- Messages emitted by `check_wms` into the good/warning/error collectors.
Each constructor stands for one `…_msgs.append(...)` call site and carries the
data interpolated into the message text (string formatting is not re-modelled). -/
inductive Msg where
  | missingParams (ps : List String)
  | stylesMissingWarn
  | negotiationError (ver : Option String) (err : String)
  | layersNotFound (ls : List String)
  | styleCountMismatch
  | styleNotSupported (layer style : String)
  | missingProjections
  | crsNotSupported (notSupported supported : List String)
  | versionWarn (requested server : String)
  | formatNotIn (fmt : String) (fmtsStr : String)
  | jpegWarn (fmt : String)
deriving DecidableEq, Repr

/-- Python exceptions `check_wms` itself can raise (all on paths unreachable
after the mandatory-parameter check): `KeyError` from `wms_args['version']` /
`wms_args['format']`, `TypeError` from joining a formats list containing `None`. -/
inductive RunErr where
  | keyError
  | typeError
deriving DecidableEq, Repr

/-- Result of a `check_wms` run: the error and warning collectors (in emission
order) and the number of GetCapabilities requests issued. -/
structure CheckOutput where
  errors : List Msg
  warnings : List Msg
  requests : Nat
deriving DecidableEq, Repr

/-- The loop `for k, v in parse_qsl(u.query): wms_args[k.lower()] = v`:
build the parameter dict from the parsed query pairs, lowercasing keys; a
later pair overwrites an earlier one with the same lowercased key. -/
def buildArgs (qs : List (String × String)) : List (String × String) :=
  qs.foldl (fun d p => dictUpsert d (pyLower p.1) p.2) []

/-- The mandatory GetMap parameters checked first (`Table 8, Section 7.3.2`). -/
def sevenParams : List String :=
  ["version", "request", "layers", "bbox", "width", "height", "format"]

/-- The missing-parameter computation of `check_wms` (the Python `set` is
modelled as a list in the insertion order of the code; only membership and
emptiness are ever used).  `crs` is added only when a `version` parameter is
present and equals `1.3.0`; `srs` only when a `version` parameter is present
and differs from `1.3.0`. -/
def missingParams (args : List (String × String)) : List String :=
  (sevenParams.filter (fun p => ¬ dictMem args (pyLower p))) ++
    (match dictLookup args "version" with
     | some v =>
       if v = "1.3.0" then (if dictMem args "crs" then [] else ["crs"])
       else (if dictMem args "srs" then [] else ["srs"])
     | none => [])

/-- The `styles` recommendation warning (emitted after the mandatory check). -/
def stylesWarnOf (args : List (String × String)) : List Msg :=
  if dictMem args "styles" then [] else [.stylesMissingWarn]

/-- The version list tried by the negotiation loop, in order
(`None` = no explicit version parameter). -/
def wmsVersions : List (Option String) :=
  [none, some "1.3.0", some "1.1.1", some "1.1.0", some "1.0.0"]

/-- The version negotiation loop.  `server v mapArg` abstracts one
`requests.get(GetCapabilities url) + parse_wms` round trip (the URL depends on
the tried version and the passthrough `map` parameter); its `Except String` is
the caught exception text.  Returns the parsed capabilities of the first
successful attempt (or `none`), the `exceptions` list accumulated for the
failed attempts before that, and the number of requests issued. -/
def negotiate (server : Option String → Option String → Except String Wms)
    (mapArg : Option String) : List (Option String) → Option Wms × List Msg × Nat
  | [] => (none, [], 0)
  | v :: rest =>
    match server v mapArg with
    | .ok w => (some w, [], 1)
    | .error e =>
      match negotiate server mapArg rest with
      | (r, msgs, n) => (r, .negotiationError v e :: msgs, n + 1)

/-- The style check of `check_wms` (reached whenever the `layers` and `styles`
parameters are present, whatever the layer check found).  Skips entirely when
the styles value is `default`, empty, or `len(layers)` commas; otherwise
reports a count mismatch, or per-position mismatches for non-empty style
tokens whose paired layer is advertised but does not advertise the style. -/
def styleMsgs (layersMap : List (Option String × WmsLayer)) (layerArg stylesVal : String) :
    List Msg :=
  let layers := pySplit layerArg (Char.ofNat 44)
  if stylesVal = "default" ∨ stylesVal = "" ∨ stylesVal = strRepeat "," layers.length then []
  else
    let styles := pySplit stylesVal (Char.ofNat 44)
    if ¬ styles.length = layers.length then [.styleCountMismatch]
    else
      (layers.zip styles).filterMap (fun p =>
        if p.2.length > 0 then
          match dictLookup layersMap (some p.1) with
          | none => none
          | some layer =>
            if dictMem layer.Styles (some p.2) then none
            else some (.styleNotSupported p.1 p.2)
        else none)

/-- The CRS check of `check_wms`: requires `available_projections` on the
source; for each advertised requested layer, every declared projection must be
in the layer's CRS set (uppercased comparison). -/
def crsMsgs (layersMap : List (Option String × WmsLayer)) (layerNames : List String)
    (availProj : Option (List String)) : List Msg :=
  match availProj with
  | none => [.missingProjections]
  | some projs =>
    layerNames.filterMap (fun ln =>
      match dictLookup layersMap (some ln) with
      | none => none
      | some layer =>
        let notSupported := projs.filter (fun crs => ¬ pyUpper crs ∈ layer.CRS)
        if ¬ notSupported = [] then some (.crsNotSupported notSupported layer.CRS)
        else none)

/-- The block `if 'layers' in wms_args:` of `check_wms`: layer existence check,
then style check (when `styles` is present), then CRS check. -/
def layerStageMsgs (wms : Wms) (args : List (String × String))
    (availProj : Option (List String)) : List Msg :=
  match dictLookup args "layers" with
  | none => []
  | some layerArg =>
    let layerNames := pySplit layerArg (Char.ofNat 44)
    let notFound := layerNames.filter (fun ln => ¬ dictMem wms.layers (some ln))
    (if ¬ notFound = [] then [.layersNotFound notFound] else []) ++
      (match dictLookup args "styles" with
       | none => []
       | some sv => styleMsgs wms.layers layerArg sv) ++
      crsMsgs wms.layers layerNames availProj

/-- Separator of the formats message: an apostrophe, a comma, a space and an
apostrophe (Python's `"', '"`). -/
def fmtSep : String := ⟨[Char.ofNat 39, Char.ofNat 44, Char.ofNat 32, Char.ofNat 39]⟩

/-- Python `"', '".join(formats)`: `TypeError` when a `Format` element had no
text (`None` in the list). -/
def joinedFormats (fs : List (Option String)) : Except RunErr String :=
  match fs.mapM id with
  | none => .error .typeError
  | some ss => .ok (String.intercalate fmtSep ss)

/-- `check_wms` from the point where the parameter dict exists (line 188 on):
mandatory-parameter check (stop), styles warning, version negotiation (stop
when every attempt fails), layer/style/CRS checks, version comparison, format
checks.  The URL-shape checks preceding the dict construction touch no state
modelled here.  `availProj` is the source's `available_projections`. -/
def checkWmsArgs (args : List (String × String))
    (server : Option String → Option String → Except String Wms)
    (availProj : Option (List String)) : Except RunErr CheckOutput :=
  let missing := missingParams args
  if ¬ missing = [] then .ok ⟨[.missingParams missing], [], 0⟩
  else
    let warns := stylesWarnOf args
    match negotiate server (dictLookup args "map") wmsVersions with
    | (none, excs, n) => .ok ⟨excs, warns, n⟩
    | (some wms, _, n) =>
      let lsMsgs := layerStageMsgs wms args availProj
      match dictLookup args "version" with
      | none => .error .keyError
      | some reqVer =>
        let verWarns :=
          if pyStrLt reqVer wms.version then [.versionWarn reqVer wms.version] else []
        match dictLookup args "format" with
        | none => .error .keyError
        | some fmt =>
          match joinedFormats wms.formats with
          | .error er => .error er
          | .ok fmtsStr =>
            let fmtErrs :=
              if some fmt ∈ wms.formats then [] else [.formatNotIn fmt fmtsStr]
            let jpegWarns :=
              if ¬ pyContains "jpeg" fmt ∧ pyContains "jpeg" fmtsStr then [.jpegWarn fmt]
              else []
            .ok ⟨lsMsgs ++ fmtErrs, warns ++ verWarns ++ jpegWarns, n⟩

/-- `check_wms` on the parsed query pairs of the source URL (the output of
`parse_qsl`, an external collaborator): build the parameter dict, then run the
checks.  Every later stage accesses the query only through this dict. -/
def checkWms (qs : List (String × String))
    (server : Option String → Option String → Except String Wms)
    (availProj : Option (List String)) : Except RunErr CheckOutput :=
  checkWmsArgs (buildArgs qs) server availProj

/-- State threaded through `check_tms`'s zoom probing: `probes` is the sequence
of `test_zoom` calls in order (each call builds and issues one tile URL;
`tested_zooms` is its set of values), `failures`/`successes` are the
`zoom_failures`/`zoom_success` lists. -/
structure TmsSt where
  probes : List Int
  failures : List Int
  successes : List Int
deriving DecidableEq, Repr

/-- Initial probing state. -/
def tmsInit : TmsSt := ⟨[], [], []⟩

/-- `test_zoom(zoom)`: record the zoom as tested, issue the tile request
(`reach` abstracts tile-URL construction plus `test_url`), and append to the
success or failure list. -/
def test_zoom (reach : Int → Bool) (s : TmsSt) (z : Int) : Bool × TmsSt :=
  if reach z then (true, ⟨s.probes ++ [z], s.failures, s.successes ++ [z]⟩)
  else (false, ⟨s.probes ++ [z], s.failures ++ [z], s.successes⟩)

/-- One widening loop of `check_tms`: walk the candidate zooms in order,
skipping already-tested ones, stopping right after the first reachable one. -/
def probeLoop (reach : Int → Bool) : List Int → TmsSt → TmsSt
  | [], s => s
  | z :: rest, s =>
    if z ∈ s.probes then probeLoop reach rest s
    else
      match test_zoom reach s z with
      | (true, s') => s'
      | (false, s') => probeLoop reach rest s'

/-- Python `range(a, b)` over integers. -/
def intRange (a b : Int) : List Int :=
  (List.range (b - a).toNat).map (fun i => a + Nat.cast i)

/-- Python `range(a, stop, -1)` over integers. -/
def intRangeDesc (a stop : Int) : List Int :=
  (List.range (a - stop).toNat).map (fun i => a - Nat.cast i)

/-- Step 4 of `check_tms`: probe `min_zoom`; when unreachable, probe
`range(min_zoom + 1, min(min_zoom + 4, max_zoom))` skipping tested zooms,
stopping at the first success. -/
def tmsPhase1 (reach : Int → Bool) (minZ maxZ : Int) : TmsSt :=
  match test_zoom reach tmsInit minZ with
  | (true, s) => s
  | (false, s) => probeLoop reach (intRange (minZ + 1) (min (minZ + 4) maxZ)) s

/-- Step 5 of `check_tms`: probe `max_zoom` (unconditionally, even when it was
already tested); when unreachable, probe
`range(max_zoom, max(max_zoom - 4, min_zoom), -1)` skipping tested zooms,
stopping at the first success. -/
def tmsPhase2 (reach : Int → Bool) (minZ maxZ : Int) (s : TmsSt) : TmsSt :=
  match test_zoom reach s maxZ with
  | (true, s') => s'
  | (false, s') => probeLoop reach (intRangeDesc maxZ (max (maxZ - 4) minZ)) s'

/-- The full zoom-probing run of `check_tms` (steps 4 and 5). -/
def runTmsProbe (reach : Int → Bool) (minZ maxZ : Int) : TmsSt :=
  tmsPhase2 reach minZ maxZ (tmsPhase1 reach minZ maxZ)

/-- Insert into a sorted list (helper of `pySortInts`). -/
def pySortInsert (z : Int) : List Int → List Int
  | [] => [z]
  | a :: rest => if z ≤ a then z :: a :: rest else a :: pySortInsert z rest

/-- Insertion sort (Python `sorted`) for the message lists. -/
def pySortInts : List Int → List Int
  | [] => []
  | z :: rest => pySortInsert z (pySortInts rest)

/-- Final classification of a `check_tms` run: all tested zooms reachable
(good message), some unreachable (error naming the sorted failures), or none
reachable (error).  Each constructor carries the sorted data interpolated into
the message. -/
inductive TmsClass where
  | allGood (tested : List Int)
  | someUnreachable (failures tested : List Int)
  | noneReachable (tested : List Int)
deriving DecidableEq, Repr

/-- The classification block of `check_tms` (`sorted(tested_zooms)` sorts the
set of tested zooms, i.e. the deduplicated probe sequence). -/
def classifyTms (s : TmsSt) : TmsClass :=
  let tested := pySortInts s.probes.dedup
  if s.failures.length = 0 ∧ s.successes.length > 0 then .allGood tested
  else if s.failures.length > 0 ∧ s.successes.length > 0 then
    .someUnreachable (pySortInts s.failures) tested
  else .noneReachable tested

/-- Python `2 ** e` for an integer exponent, as an exact rational (Python gives
an `int` for `e ≥ 0` and a `float` for `e < 0`; the float values arising here,
such as `2 ** -1 = 0.5`, are exactly representable, so `ℚ` models them
exactly). -/
def pyPow2 (e : Int) : ℚ :=
  if 0 ≤ e then ((2 ^ e.toNat : ℤ) : ℚ) else 1 / ((2 ^ (-e).toNat : ℤ) : ℚ)

/-- Which y-axis convention a tile URL template uses, with the priority of the
`if '\x7b-y\x7d' in tms_url / elif '\x7b!y\x7d' in tms_url / else` chain of `test_zoom`. -/
inductive YConv where
  | negY
  | bangY
  | plainY
deriving DecidableEq, Repr

/-- The template token `\x7b-y\x7d`. -/
def negYTok : String := ⟨[Char.ofNat 123, Char.ofNat 45, Char.ofNat 121, Char.ofNat 125]⟩

/-- The template token `\x7b!y\x7d`. -/
def bangYTok : String := ⟨[Char.ofNat 123, Char.ofNat 33, Char.ofNat 121, Char.ofNat 125]⟩

/-- Convention selection of `test_zoom` on the URL template. -/
def yConvOf (url : String) : YConv :=
  if pyContains negYTok url then .negY
  else if pyContains bangYTok url then .bangY
  else .plainY

/-- The vertical tile coordinate substituted by `test_zoom`: the row itself for
`\x7by\x7d`, `2 ** zoom - 1 - tile.y` for `\x7b-y\x7d`, `2 ** (zoom - 1) - 1 - tile.y` for
`\x7b!y\x7d` (Python arithmetic, exact in `ℚ`). -/
def yValue (conv : YConv) (zoom row : Int) : ℚ :=
  match conv with
  | .negY => pyPow2 zoom - 1 - (row : ℚ)
  | .bangY => pyPow2 (zoom - 1) - 1 - (row : ℚ)
  | .plainY => (row : ℚ)

/-- Build an `XList` from a `List`. -/
def xlist : List XElem → XList
  | [] => .nil
  | e :: rest => .cons e (xlist rest)

/-- Option fallback (`a` if present, else `b`); used to state the last-wins
lookup characterisation. -/
def optOr : Option α → Option α → Option α
  | some a, _ => some a
  | none, b => b

/-- A `Name` element with the given text. -/
def nameEl (s : String) : XElem := .mk "Name" [] (some s) .nil

/-- A `CRS` element with the given text. -/
def crsEl (s : String) : XElem := .mk "CRS" [] (some s) .nil

/-- First top-level layer of the C1 document: named `A`, declares `epsg:1111`. -/
def c1LayerA : XElem := .mk "Layer" [] none (xlist [nameEl "A", crsEl "epsg:1111"])

/-- Second top-level layer of the C1 document: named `B`, declares nothing. -/
def c1LayerB : XElem := .mk "Layer" [] none (xlist [nameEl "B"])

/-- Capabilities document with two sibling top-level layers under
`Capability`, only the first of which declares a CRS. -/
def c1doc : XElem :=
  .mk "WMS_Capabilities" [("version", "1.3.0")] none
    (xlist [.mk "Capability" [] none (xlist [c1LayerA, c1LayerB])])

/-- A well-formed capabilities document whose only layer has a `CRS` child
with no text content. -/
def c6doc : XElem :=
  .mk "WMS_Capabilities" [("version", "1.3.0")] none
    (xlist [.mk "Capability" [] none
      (xlist [.mk "Layer" [] none (xlist [nameEl "L", .mk "CRS" [] none .nil])])])

/-- A service exception report document. -/
def c6svcDoc : XElem := .mk "ServiceExceptionReport" [] none .nil

/-- Whether a `parse_wms` outcome is one of the four failure conditions listed
by the contract (parse / service-exception / root-tag / version errors). -/
def listedClaimErr : PyErr → Bool
  | .parseError => true
  | .serviceError => true
  | .protocolError _ => true
  | .versionError => true
  | .body _ => false

/-- Capabilities value returned by the C2 witness server. -/
def c2wms : Wms := ⟨"1.1.1", [], []⟩

/-- Mock server for the C2 witness: fails for no-version and `1.3.0`,
succeeds at `1.1.1`. -/
def c2srv : Option String → Option String → Except String Wms :=
  fun v _ => if v = some "1.1.1" then .ok c2wms else .error "boom"

/-- Parameter dict with all mandatory parameters except `version` (and with
neither `srs` nor `crs`). -/
def c7args : List (String × String) :=
  [("request", "GetMap"), ("layers", "a"), ("bbox", "0,0,1,1"),
   ("width", "256"), ("height", "256"), ("format", "image/png")]

/-- Server that always fails (never reached in the C7 scenario). -/
def c7srv : Option String → Option String → Except String Wms :=
  fun _ _ => .error "unreachable"

/-- Capabilities advertising no layers at all (for the C9 counterexample). -/
def c9wms : Wms := ⟨"1.3.0", [], [some "image/png"]⟩

/-- Server that immediately returns `c9wms`. -/
def c9srv : Option String → Option String → Except String Wms :=
  fun _ _ => .ok c9wms

/-- Query pairs of a WMS GetMap URL requesting two layers (neither advertised
by `c9wms`) with a single style token. -/
def c9qs : List (String × String) :=
  [("version", "1.1.1"), ("request", "GetMap"), ("layers", "a,b"),
   ("srs", "EPSG:4326"), ("bbox", "0,0,1,1"), ("width", "256"),
   ("height", "256"), ("format", "image/png"), ("styles", "s1")]

/-- Layer dict advertising layer `a` with no styles (for the C9 witness). -/
def c9wlayers : List (Option String × WmsLayer) :=
  [(some "a", ⟨some (some "a"), none, none, [], []⟩)]

/-- Tile server reachable exactly at zooms 7 and 10. -/
def c3reach : Int → Bool := fun z => z == 7 || z == 10

/-- Tile server where no zoom is reachable. -/
def c4reach : Int → Bool := fun _ => false

/-- A tile URL template using the `\x7b!y\x7d` convention. -/
def c8url : String := "https://tile.example.com/t/" ++ bangYTok ++ ".png"

theorem dictMem_eq_isSome [DecidableEq K] (d : List (K × V)) (k : K) :
    dictMem d k = (dictLookup d k).isSome := by
  unfold dictMem dictLookup
  cases d.find? (fun p => p.1 = k) <;> rfl

theorem dictLookup_upsert [DecidableEq K] (d : List (K × V)) (k k' : K) (v : V) :
    dictLookup (dictUpsert d k v) k' = if k = k' then some v else dictLookup d k' := by
  induction d with
  | nil =>
    by_cases h : k = k' <;> simp [dictUpsert, dictLookup, List.find?, h]
  | cons hd tl ih =>
    obtain ⟨a, b⟩ := hd
    by_cases hak : a = k
    · subst hak
      by_cases h : a = k' <;> simp [dictUpsert, dictLookup, List.find?, h]
    · by_cases h : a = k'
      · subst h
        have hk : ¬ k = a := fun hh => hak hh.symm
        simp [dictUpsert, dictLookup, List.find?, hak, hk]
      · simp only [dictUpsert, if_neg hak]
        by_cases hkk : k = k'
        · subst hkk
          simpa [dictLookup, List.find?, h] using ih
        · simpa [dictLookup, List.find?, h, hkk] using ih

theorem buildArgs_lookup_gen (qs : List (String × String)) :
    ∀ (d : List (String × String)) (key : String),
      dictLookup (qs.foldl (fun d p => dictUpsert d (pyLower p.1) p.2) d) key =
        optOr ((qs.filterMap (fun p =>
          if pyLower p.1 = key then some p.2 else none)).getLast?) (dictLookup d key) := by
  induction qs with
  | nil => intro d key; simp [optOr]
  | cons p rest ih =>
    intro d key
    rw [List.foldl_cons, ih, List.filterMap_cons, dictLookup_upsert]
    by_cases hc : pyLower p.1 = key
    · rw [if_pos hc, if_pos hc]
      rcases h : rest.filterMap (fun p => if pyLower p.1 = key then some p.2 else none) with
        _ | ⟨x, xs⟩
      · rw [h]
        rfl
      · rw [h, List.getLast?_cons_cons]
        obtain ⟨y, hy⟩ := Option.isSome_iff_exists.mp
          (List.getLast?_isSome.mpr (List.cons_ne_nil x xs))
        rw [hy]
        rfl
    · rw [if_neg hc, if_neg hc]

/-- C10: `check_wms` builds its parameter map with `wms_args[k.lower()] = v`
over the parsed query pairs, so for each (lowercased) name the value of the
last occurrence wins, and all later checks read the query only through this
map (`checkWms` factors through `buildArgs`). -/
theorem c10_last_occurrence_wins :
    (∀ (qs : List (String × String)) (key : String),
      dictLookup (buildArgs qs) key =
        (qs.filterMap (fun p => if pyLower p.1 = key then some p.2 else none)).getLast?) ∧
    (∀ qs server availProj, checkWms qs server availProj =
      checkWmsArgs (buildArgs qs) server availProj) := by
  constructor
  · intro qs key
    have h := buildArgs_lookup_gen qs [] key
    rw [buildArgs, h]
    cases hL : (qs.filterMap (fun p => if pyLower p.1 = key then some p.2 else none)).getLast? <;>
      rfl
  · intro qs server availProj
    rfl

/-- C2: the version negotiation of `check_wms` tries
`[None, 1.3.0, 1.1.1, 1.1.0, 1.0.0]` in that order and stops at the first
parse success: when the first two attempts fail and the `1.1.1` attempt
succeeds, exactly three requests are issued; when all five attempts fail,
every attempt's error text is appended to the error collector and the run
stops with no further checks. -/
theorem c2_version_negotiation :
    wmsVersions = [none, some "1.3.0", some "1.1.1", some "1.1.0", some "1.0.0"] ∧
    (∀ (server : Option String → Option String → Except String Wms) mapArg e₁ e₂ w,
      server none mapArg = .error e₁ →
      server (some "1.3.0") mapArg = .error e₂ →
      server (some "1.1.1") mapArg = .ok w →
      negotiate server mapArg wmsVersions =
        (some w, [.negotiationError none e₁, .negotiationError (some "1.3.0") e₂], 3)) ∧
    (∀ (server : Option String → Option String → Except String Wms) args availProj
        e₁ e₂ e₃ e₄ e₅,
      missingParams args = [] →
      server none (dictLookup args "map") = .error e₁ →
      server (some "1.3.0") (dictLookup args "map") = .error e₂ →
      server (some "1.1.1") (dictLookup args "map") = .error e₃ →
      server (some "1.1.0") (dictLookup args "map") = .error e₄ →
      server (some "1.0.0") (dictLookup args "map") = .error e₅ →
      checkWmsArgs args server availProj =
        .ok ⟨[.negotiationError none e₁, .negotiationError (some "1.3.0") e₂,
              .negotiationError (some "1.1.1") e₃, .negotiationError (some "1.1.0") e₄,
              .negotiationError (some "1.0.0") e₅],
             stylesWarnOf args, 5⟩) := by
  refine ⟨rfl, ?_, ?_⟩
  · intro server mapArg e₁ e₂ w h₁ h₂ h₃
    simp [wmsVersions, negotiate, h₁, h₂, h₃]
  · intro server args availProj e₁ e₂ e₃ e₄ e₅ hm h₁ h₂ h₃ h₄ h₅
    simp [checkWmsArgs, hm, wmsVersions, negotiate, h₁, h₂, h₃, h₄, h₅]

/-- Witness for C2: a concrete mock server failing for no-version and `1.3.0`
and succeeding at `1.1.1` issues exactly three requests. -/
theorem c2_version_negotiation_witness :
    negotiate c2srv none wmsVersions =
      (some c2wms, [.negotiationError none "boom", .negotiationError (some "1.3.0") "boom"], 3) :=
  c2_version_negotiation.2.1 c2srv none "boom" "boom" c2wms (by decide) (by decide) (by decide)

/-- Counterexample to C7: with every mandatory parameter present except
`version` (and neither `srs` nor `crs` present), the missing-parameter check
reports only `version` — `srs` is NOT reported, although the claim says `srs`
is mandatory whenever the version parameter is not `1.3.0`, including absent. -/
theorem c7_counterexample :
    missingParams c7args = ["version"] ∧
    ¬ "srs" ∈ missingParams c7args ∧
    ¬ "crs" ∈ missingParams c7args ∧
    dictMem c7args "srs" = false ∧
    dictMem c7args "version" = false := by
  refine ⟨by decide, by decide, by decide, by decide, by decide⟩

/-- C7 (amended): `version, request, layers, bbox, width, height, format` are
always required; `crs` is additionally required exactly when the `version`
parameter is present and equals `1.3.0` and `crs` is absent; `srs` exactly
when `version` is present with a value other than `1.3.0` and `srs` is
absent.  When the `version` parameter is absent, neither `crs` nor `srs` is
required (only `version` itself is reported).  All missing parameters are
reported in one combined error message and the run stops with no request
issued and no further checks. -/
theorem c7_mandatory_params (args : List (String × String))
    (server : Option String → Option String → Except String Wms)
    (availProj : Option (List String)) :
    ("crs" ∈ missingParams args ↔
      dictLookup args "version" = some "1.3.0" ∧ dictMem args "crs" = false) ∧
    ("srs" ∈ missingParams args ↔
      (∃ v, dictLookup args "version" = some v ∧ ¬ v = "1.3.0") ∧
        dictMem args "srs" = false) ∧
    (dictLookup args "version" = none →
      ¬ "crs" ∈ missingParams args ∧ ¬ "srs" ∈ missingParams args ∧
        "version" ∈ missingParams args) ∧
    (¬ missingParams args = [] →
      checkWmsArgs args server availProj =
        .ok ⟨[.missingParams (missingParams args)], [], 0⟩) := by
  refine ⟨?_, ?_, ?_, ?_⟩
  · unfold missingParams
    rcases hv : dictLookup args "version" with _ | v
    · simp [List.mem_filter, sevenParams]
    · by_cases h13 : v = "1.3.0"
      · subst h13
        by_cases hcrs : dictMem args "crs" = true <;>
          simp [List.mem_filter, sevenParams, hcrs, Bool.not_eq_true] at hcrs ⊢
      · by_cases hsrs : dictMem args "srs" = true <;>
          simp [List.mem_filter, sevenParams, h13, hsrs, Bool.not_eq_true]
  · unfold missingParams
    rcases hv : dictLookup args "version" with _ | v
    · simp [List.mem_filter, sevenParams]
    · by_cases h13 : v = "1.3.0"
      · subst h13
        by_cases hcrs : dictMem args "crs" = true <;>
          simp [List.mem_filter, sevenParams, hcrs, Bool.not_eq_true]
      · by_cases hsrs : dictMem args "srs" = true <;>
          simp [List.mem_filter, sevenParams, h13, hsrs, Bool.not_eq_true]
  · intro hv
    refine ⟨?_, ?_, ?_⟩
    · unfold missingParams
      simp [List.mem_filter, sevenParams, hv]
    · unfold missingParams
      simp [List.mem_filter, sevenParams, hv]
    · unfold missingParams
      refine List.mem_append.mpr (Or.inl (List.mem_filter.mpr ⟨by decide, ?_⟩))
      have hmem : dictMem args "version" = false := by
        rw [dictMem_eq_isSome, hv]
        rfl
      simp [pyLower, hmem]
  · intro hne
    rw [checkWmsArgs.eq_def]
    simp only [if_pos hne]

/-- Witness for C7 (amended): on the concrete parameter dict missing only
`version`, the run stops with the single combined missing-parameter error,
zero requests and no warnings. -/
theorem c7_mandatory_params_witness :
    checkWmsArgs c7args c7srv none =
      .ok ⟨[.missingParams (missingParams c7args)], [], 0⟩ :=
  (c7_mandatory_params c7args c7srv none).2.2.2 (by decide)

/-- C5: in the style check, a `styles` value of `,,` (three empty positional
tokens) paired with a `layers` parameter naming exactly 3 layers never
produces any style error, for any layer names and any advertised layer dict:
the three tokens are empty, so every positional check is skipped (note the
`,,` value is not caught by the pure-comma exemption, which for 3 layers is
`,,,`; the outcome nevertheless holds through the empty-token path). -/
theorem c5_three_empty_styles (layersMap : List (Option String × WmsLayer)) (layerArg : String)
    (h : (pySplit layerArg (Char.ofNat 44)).length = 3) :
    styleMsgs layersMap layerArg ",," = [] := by
  obtain ⟨a, b, c, habc⟩ := List.length_eq_three.mp h
  have hsplit : pySplit ",," (Char.ofNat 44) = ["", "", ""] := by decide
  have hlen3 : ([a, b, c] : List String).length = 3 := rfl
  rw [styleMsgs.eq_def, habc, hsplit]
  simp only [hlen3]
  rw [if_neg (by decide)]
  rw [if_neg (by decide)]
  simp [List.zip, List.zipWith, List.filterMap]

/-- Witness for C5: a concrete three-layer request with styles value `,,` yields no style message. -/
theorem c5_three_empty_styles_witness :
    styleMsgs [] "x,y,z" ",," = [] :=
  c5_three_empty_styles [] "x,y,z" (by decide)

/-- Counterexample to C9: a request for two layers neither of which is
advertised, with a single style token, emits both the layers-not-found error
AND the style-count-mismatch error — a style-related error is produced even
though the layer check failed, contradicting the claim that the style check
runs only when every requested layer matched. -/
theorem c9_counterexample :
    checkWms c9qs c9srv (some ["EPSG:4326"]) =
      .ok ⟨[.layersNotFound ["a", "b"], .styleCountMismatch],
           [.versionWarn "1.1.1" "1.3.0"], 1⟩ ∧
    Msg.styleCountMismatch ∈
      [Msg.layersNotFound ["a", "b"], Msg.styleCountMismatch] := by
  exact ⟨by decide, by decide⟩

/-- C9 (amended): the style check runs whenever the `layers` and `styles`
parameters are present, regardless of whether the requested layers matched the
capability tree (the count-mismatch error can be emitted even when some
requested layer is unadvertised); only the per-(layer, style) advertisement
errors are restricted to advertised layers, so a layer absent from the
capability mapping never gets a `styleNotSupported` error naming it. -/
theorem c9_style_check_gating (layersMap : List (Option String × WmsLayer))
    (layerArg stylesVal : String) (ln st : String)
    (h : Msg.styleNotSupported ln st ∈ styleMsgs layersMap layerArg stylesVal) :
    dictMem layersMap (some ln) = true := by
  rw [styleMsgs.eq_def] at h
  by_cases hex : stylesVal = "default" ∨ stylesVal = "" ∨
      stylesVal = strRepeat "," (pySplit layerArg (Char.ofNat 44)).length
  · rw [if_pos hex] at h
    exact absurd h (List.not_mem_nil _)
  · rw [if_neg hex] at h
    by_cases hlen : ¬ (pySplit stylesVal (Char.ofNat 44)).length =
        (pySplit layerArg (Char.ofNat 44)).length
    · rw [if_pos hlen] at h
      simp at h
    · rw [if_neg hlen] at h
      obtain ⟨p, _, hfp⟩ := List.mem_filterMap.mp h
      by_cases hplen : p.2.length > 0
      · rw [if_pos hplen] at hfp
        rcases hl : dictLookup layersMap (some p.1) with _ | layer
        · simp only [hl] at hfp
          exact Option.noConfusion hfp
        · simp only [hl] at hfp
          by_cases hmem : dictMem layer.Styles (some p.2) = true
          · rw [if_pos hmem] at hfp
            simp at hfp
          · rw [if_neg hmem] at hfp
            have hp1 : p.1 = ln := by
              have heq := Option.some.inj hfp
              injection heq with h1 h2
            rw [dictMem_eq_isSome, ← hp1, hl]
            rfl
      · rw [if_neg hplen] at hfp
        simp at hfp

/-- Witness for C9 (amended): a concrete emitted per-(layer, style) mismatch
implies the layer is advertised. -/
theorem c9_style_check_gating_witness :
    dictMem c9wlayers (some "a") = true :=
  c9_style_check_gating c9wlayers "a" "x" "a" "x" (by decide)

/-- C1 (failing input): `parse_layer`'s default arguments `crs=set()`,
`styles=\x7b\x7d` are evaluated once, so all top-level `parse_layer(top_layer)`
calls share one CRS set object.  On a document with two sibling top-level
layers under `Capability` — `A` declaring `epsg:1111` and `B` declaring no
CRS/SRS at all — layer `B`'s parsed CRS set is `{EPSG:1111}` (it aliases the
same set as `A`), although the claim (and the spec's copy-on-descend
invariant) requires `B`'s set to be the union of its own declarations (none)
and its parent's (none), i.e. empty, independent of its sibling. -/
theorem c1_sibling_crs_leak :
    getTexts c1LayerB "CRS" = [] ∧ getTexts c1LayerB "SRS" = [] ∧
    ((parse_wms (some c1doc)).toOption.bind
        (fun w => dictLookup w.layers (some "B"))).map (fun l => l.CRS)
      = some ["EPSG:1111"] ∧
    ((parse_wms (some c1doc)).toOption.bind
        (fun w => dictLookup w.layers (some "A"))).map (fun l => l.CRS)
      = some ["EPSG:1111"] := by
  refine ⟨by decide, by decide, by decide, by decide⟩

/-- Counterexample to C6: a well-formed capabilities document (correct root
tag, `version` attribute present) whose only layer carries a `CRS` element
with no text makes `parse_wms` raise the uncaught `AttributeError` from
`e.text.upper()` — a fifth failure mode that is neither one of the four
contracted errors nor a returned capability tree, refuting `fails exactly
under these conditions`. -/
theorem c6_counterexample :
    parse_wms (some c6doc) = .error (.body .attrError) ∧
    listedClaimErr (PyErr.body BodyErr.attrError) = false ∧
    (parse_wms (some c6doc)).toOption = none ∧
    stripNs (stripTagsE c6doc).tag = "WMS_Capabilities" ∧
    dictLookup (stripTagsE c6doc).attrs "version" = some "1.3.0" := by
  refine ⟨by decide, by decide, by decide, by decide, by decide⟩

/-- C6 (amended): `parse_wms` fails with the parse error on unparseable input,
with the service error when the root's local name is a service exception
report, with the protocol error (carrying the root tag) when the root is
neither capabilities element, and with the version error when the root has no
`version` attribute; on any other input it either returns a tree whose
`version` field is the root's `version` attribute, or raises the
AttributeError/KeyError of its layer-parsing body (CRS/SRS element without
text, `Style` element without a `Name` child) — two failure modes the
original contract does not list. -/
theorem c6_parse_contract (root : XElem) :
    parse_wms none = .error .parseError ∧
    (stripNs (stripTagsE root).tag = "ServiceExceptionReport" ∨
        stripNs (stripTagsE root).tag = "ServiceException" →
      parse_wms (some root) = .error .serviceError) ∧
    (¬ (stripNs (stripTagsE root).tag = "ServiceExceptionReport" ∨
        stripNs (stripTagsE root).tag = "ServiceException") →
     ¬ (stripNs (stripTagsE root).tag = "WMT_MS_Capabilities" ∨
        stripNs (stripTagsE root).tag = "WMS_Capabilities") →
      parse_wms (some root) = .error (.protocolError (stripNs (stripTagsE root).tag))) ∧
    ((stripNs (stripTagsE root).tag = "WMT_MS_Capabilities" ∨
        stripNs (stripTagsE root).tag = "WMS_Capabilities") →
     dictLookup (stripTagsE root).attrs "version" = none →
      parse_wms (some root) = .error .versionError) ∧
    (∀ v, (stripNs (stripTagsE root).tag = "WMT_MS_Capabilities" ∨
        stripNs (stripTagsE root).tag = "WMS_Capabilities") →
     dictLookup (stripTagsE root).attrs "version" = some v →
      parse_wms (some root) = .error (.body .attrError) ∨
      parse_wms (some root) = .error (.body .keyError) ∨
      ∃ w, parse_wms (some root) = .ok w ∧ w.version = v) := by
  have hsvc_of_caps :
      (stripNs (stripTagsE root).tag = "WMT_MS_Capabilities" ∨
        stripNs (stripTagsE root).tag = "WMS_Capabilities") →
      ¬ (stripNs (stripTagsE root).tag = "ServiceExceptionReport" ∨
        stripNs (stripTagsE root).tag = "ServiceException") := by
    rintro (hc | hc) (hs | hs) <;> rw [hc] at hs <;> exact absurd hs (by decide)
  refine ⟨rfl, ?_, ?_, ?_, ?_⟩
  · intro h
    rw [parse_wms.eq_def]
    simp only [if_pos h]
  · intro h1 h2
    rw [parse_wms.eq_def]
    simp only [if_neg h1, if_pos h2]
  · intro hcaps hver
    rw [parse_wms.eq_def]
    simp only [if_neg (hsvc_of_caps hcaps), if_neg (not_not_intro hcaps), hver]
  · intro v hcaps hver
    rw [parse_wms.eq_def]
    simp only [if_neg (hsvc_of_caps hcaps), if_neg (not_not_intro hcaps), hver]
    rcases hpt : parseTops (findTopLayers (stripTagsE root)) [] with be | pr
    · cases be
      · exact Or.inl rfl
      · exact Or.inr (Or.inl rfl)
    · obtain ⟨tregs, dFinal⟩ := pr
      exact Or.inr (Or.inr ⟨_, rfl, rfl⟩)

/-- Witness for C6 (amended): the service-exception branch at a concrete
document. -/
theorem c6_parse_contract_witness :
    parse_wms (some c6svcDoc) = .error .serviceError :=
  (c6_parse_contract c6svcDoc).2.1 (Or.inl (by decide))

/-- Counterexample to C8: at zoom 0 with the `\x7b!y\x7d` convention (a combination
the probing loop can reach, since `min_zoom` defaults to 0), the substituted
value is `2 ** (0 - 1) - 1 - 0 = -0.5`, a Python float that is not an integer
(its exact value has denominator 2), so the vertical coordinate is not
resolved `using exact integer arithmetic` as claimed. -/
theorem c8_counterexample :
    yConvOf c8url = YConv.bangY ∧
    yValue YConv.bangY 0 0 = -(1 / 2 : ℚ) ∧
    (yValue YConv.bangY 0 0).den = 2 := by
  refine ⟨by decide, ?_, ?_⟩
  · norm_num [yValue, pyPow2]
  · norm_num [yValue, pyPow2]

/-- C8 (amended): for every zoom `z ≥ 0` and row `r`, the substituted vertical
coordinate is `r` for `\x7by\x7d` and the exact integer `2 ^ z - 1 - r` for `\x7b-y\x7d`;
for `\x7b!y\x7d` it is the exact integer `2 ^ (z - 1) - 1 - r` when `z ≥ 1`, while
at `z = 0` Python computes the non-integral value `1/2 - 1 - r`. -/
theorem c8_y_substitution (z r : Int) (hz : 0 ≤ z) :
    yValue YConv.plainY z r = (r : ℚ) ∧
    yValue YConv.negY z r = ((2 ^ z.toNat - 1 - r : ℤ) : ℚ) ∧
    (1 ≤ z → yValue YConv.bangY z r = ((2 ^ (z - 1).toNat - 1 - r : ℤ) : ℚ)) ∧
    (z = 0 → yValue YConv.bangY z r = 1 / 2 - 1 - (r : ℚ)) := by
  refine ⟨rfl, ?_, ?_, ?_⟩
  · rw [yValue.eq_def]
    simp only [pyPow2, if_pos hz]
    push_cast
    ring
  · intro h1
    rw [yValue.eq_def]
    simp only [pyPow2, if_pos (by omega : (0 : ℤ) ≤ z - 1)]
    push_cast
    ring
  · intro h0
    subst h0
    rw [yValue.eq_def]
    norm_num [pyPow2]

/-- Witness for C8 (amended): concrete zoom 5, row 3. -/
theorem c8_y_substitution_witness :
    yValue YConv.negY 5 3 = ((2 ^ (5 : Int).toNat - 1 - 3 : ℤ) : ℚ) ∧
    yValue YConv.bangY 5 3 = ((2 ^ ((5 : Int) - 1).toNat - 1 - 3 : ℤ) : ℚ) :=
  ⟨(c8_y_substitution 5 3 (by decide)).2.1,
   (c8_y_substitution 5 3 (by decide)).2.2.1 (by decide)⟩

theorem test_zoom_probes (reach : Int → Bool) (s : TmsSt) (z : Int) :
    ((test_zoom reach s z).2).probes = s.probes ++ [z] := by
  by_cases h : reach z = true <;> simp [test_zoom, h]

theorem probeLoop_probes (reach : Int → Bool) :
    ∀ (cands : List Int) (s : TmsSt),
      ∃ new, (probeLoop reach cands s).probes = s.probes ++ new ∧ new.Nodup ∧
        ∀ z ∈ new, z ∈ cands ∧ ¬ z ∈ s.probes := by
  intro cands
  induction cands with
  | nil =>
    intro s
    exact ⟨[], by simp [probeLoop], List.nodup_nil, by simp⟩
  | cons z rest ih =>
    intro s
    by_cases hz : z ∈ s.probes
    · obtain ⟨new, h1, h2, h3⟩ := ih s
      refine ⟨new, ?_, h2, ?_⟩
      · simp only [probeLoop, if_pos hz]
        exact h1
      · intro w hw
        exact ⟨List.mem_cons_of_mem _ (h3 w hw).1, (h3 w hw).2⟩
    · by_cases hr : reach z = true
      · refine ⟨[z], ?_, List.nodup_singleton z, ?_⟩
        · simp only [probeLoop, if_neg hz]
          simp [test_zoom, hr]
        · intro w hw
          have hwz := List.mem_singleton.mp hw
          subst hwz
          exact ⟨List.mem_cons_self _ _, hz⟩
      · have hs' : test_zoom reach s z =
            (false, ⟨s.probes ++ [z], s.failures ++ [z], s.successes⟩) := by
          simp [test_zoom, hr]
        obtain ⟨new, h1, h2, h3⟩ := ih ⟨s.probes ++ [z], s.failures ++ [z], s.successes⟩
        refine ⟨z :: new, ?_, ?_, ?_⟩
        · simp only [probeLoop, if_neg hz, hs']
          rw [h1]
          simp
        · refine List.nodup_cons.mpr ⟨?_, h2⟩
          intro hzn
          exact (h3 z hzn).2 (by simp)
        · intro w hw
          rcases List.mem_cons.mp hw with rfl | hw'
          · exact ⟨List.mem_cons_self _ _, hz⟩
          · refine ⟨List.mem_cons_of_mem _ (h3 w hw').1, ?_⟩
            intro hws
            exact (h3 w hw').2 (by simp [hws])

theorem intRange_mem {a b z : Int} (h : z ∈ intRange a b) : a ≤ z ∧ z < b := by
  simp only [intRange, List.mem_map, List.mem_range] at h
  obtain ⟨i, hi, rfl⟩ := h
  omega

theorem intRangeDesc_mem {a stop z : Int} (h : z ∈ intRangeDesc a stop) :
    stop < z ∧ z ≤ a := by
  simp only [intRangeDesc, List.mem_map, List.mem_range] at h
  obtain ⟨i, hi, rfl⟩ := h
  omega

theorem tmsPhase1_probes (reach : Int → Bool) (minZ maxZ : Int) :
    ∃ new, (tmsPhase1 reach minZ maxZ).probes = minZ :: new ∧ new.Nodup ∧
      ∀ z ∈ new, minZ < z ∧ z < min (minZ + 4) maxZ := by
  by_cases hr : reach minZ = true
  · refine ⟨[], ?_, List.nodup_nil, by simp⟩
    simp [tmsPhase1, test_zoom, hr, tmsInit]
  · have hs : test_zoom reach tmsInit minZ = (false, ⟨[minZ], [minZ], []⟩) := by
      simp [test_zoom, hr, tmsInit]
    obtain ⟨new, h1, h2, h3⟩ := probeLoop_probes reach
      (intRange (minZ + 1) (min (minZ + 4) maxZ)) ⟨[minZ], [minZ], []⟩
    refine ⟨new, ?_, h2, ?_⟩
    · simp only [tmsPhase1, hs]
      rw [h1]
      simp
    · intro z hz
      obtain ⟨ha, hb⟩ := intRange_mem (h3 z hz).1
      exact ⟨by omega, hb⟩

theorem tmsPhase2_probes (reach : Int → Bool) (minZ maxZ : Int) (s : TmsSt) :
    ∃ new, (tmsPhase2 reach minZ maxZ s).probes = s.probes ++ maxZ :: new ∧ new.Nodup ∧
      ∀ z ∈ new, (max (maxZ - 4) minZ < z ∧ z ≤ maxZ) ∧ ¬ z ∈ s.probes ++ [maxZ] := by
  by_cases hr : reach maxZ = true
  · refine ⟨[], ?_, List.nodup_nil, by simp⟩
    simp [tmsPhase2, test_zoom, hr]
  · have hs2 : test_zoom reach s maxZ =
        (false, ⟨s.probes ++ [maxZ], s.failures ++ [maxZ], s.successes⟩) := by
      simp [test_zoom, hr]
    obtain ⟨new, h1, h2, h3⟩ := probeLoop_probes reach
      (intRangeDesc maxZ (max (maxZ - 4) minZ))
      ⟨s.probes ++ [maxZ], s.failures ++ [maxZ], s.successes⟩
    refine ⟨new, ?_, h2, ?_⟩
    · simp only [tmsPhase2, hs2]
      rw [h1]
      simp
    · intro z hz
      obtain ⟨ha, hb⟩ := intRangeDesc_mem (h3 z hz).1
      exact ⟨⟨ha, hb⟩, (h3 z hz).2⟩

/-- Counterexample to C4: with `minZoom = maxZoom = 5` (explicitly included in
the claim), `check_tms` probes zoom 5 twice — step 5 calls
`test_zoom(max_zoom)` unconditionally, without consulting `tested_zooms` — so
a tile URL is issued and classified twice for the same zoom. -/
theorem c4_counterexample :
    (runTmsProbe c4reach 5 5).probes = [5, 5] ∧
    ¬ (runTmsProbe c4reach 5 5).probes.Nodup := by
  exact ⟨by decide, by decide⟩

/-- C4 (amended): during one `check_tms` run no zoom is probed more than once
whenever `minZoom < maxZoom` (already-tested zooms are skipped by both
widening loops, and the unconditional `test_zoom(max_zoom)` hits a fresh
zoom); in the boundary case `minZoom = maxZoom` that single zoom is probed
exactly twice — once by step 4 and once by step 5 — and no other zoom is
probed. -/
theorem c4_no_duplicate_probes (reach : Int → Bool) (minZ maxZ : Int) :
    (minZ < maxZ → (runTmsProbe reach minZ maxZ).probes.Nodup) ∧
    (minZ = maxZ → (runTmsProbe reach minZ maxZ).probes = [minZ, minZ]) := by
  constructor
  · intro hlt
    obtain ⟨n1, hp1, hn1, hb1⟩ := tmsPhase1_probes reach minZ maxZ
    obtain ⟨n2, hp2, hn2, hb2⟩ := tmsPhase2_probes reach minZ maxZ (tmsPhase1 reach minZ maxZ)
    rw [runTmsProbe, hp2, hp1]
    have h1lt : ∀ z ∈ minZ :: n1, z < maxZ := by
      intro z hz
      rcases List.mem_cons.mp hz with rfl | hz'
      · exact hlt
      · have hb := (hb1 z hz').2
        have hm : min (minZ + 4) maxZ ≤ maxZ := min_le_right _ _
        omega
    refine List.nodup_append.mpr ⟨?_, ?_, ?_⟩
    · refine List.nodup_cons.mpr ⟨?_, hn1⟩
      intro h
      exact absurd ((hb1 minZ h).1) (lt_irrefl _)
    · refine List.nodup_cons.mpr ⟨?_, hn2⟩
      intro h
      exact (hb2 maxZ h).2 (by simp)
    · intro a ha hb
      rcases List.mem_cons.mp hb with rfl | hb'
      · exact absurd (h1lt a ha) (lt_irrefl _)
      · have hnp := (hb2 a hb').2
        rw [hp1] at hnp
        exact hnp (List.mem_append_left _ ha)
  · intro heq
    subst heq
    have hA : intRange (minZ + 1) minZ = [] := by
      unfold intRange
      rw [show (minZ - (minZ + 1)).toNat = 0 from by omega]
      rfl
    have hB : intRangeDesc minZ minZ = [] := by
      unfold intRangeDesc
      rw [show (minZ - minZ).toNat = 0 from by omega]
      rfl
    have hA' : intRange (minZ + 1) (min (minZ + 4) minZ) = [] := by
      rw [min_eq_right (by omega : minZ ≤ minZ + 4)]
      exact hA
    have hB' : intRangeDesc minZ (max (minZ - 4) minZ) = [] := by
      rw [max_eq_right (by omega : minZ - 4 ≤ minZ)]
      exact hB
    by_cases hr : reach minZ = true <;>
      simp [runTmsProbe, tmsPhase1, tmsPhase2, probeLoop, test_zoom, tmsInit, hr, hA, hB, hA', hB']

/-- Witness for C4 (amended): a concrete run with `minZoom < maxZoom` has a
duplicate-free probe sequence. -/
theorem c4_no_duplicate_probes_witness :
    ((runTmsProbe (fun _ => true) 3 4).probes).Nodup :=
  (c4_no_duplicate_probes (fun _ => true) 3 4).1 (by decide)

/-- Counterexample to C3: with `minZoom = 5`, `maxZoom = 10`, zooms 5 and 6
unreachable and zoom 7 reachable (reachability exactly at 7 and 10), the
tested zoom set is `{5, 6, 7, 10}`, not `{5, 6, 7}`: step 5 unconditionally
probes `maxZoom = 10` after the ascending widening stops. -/
theorem c3_counterexample :
    c3reach 5 = false ∧ c3reach 6 = false ∧ c3reach 7 = true ∧
    (runTmsProbe c3reach 5 10).probes = [5, 6, 7, 10] ∧
    ¬ (10 : Int) ∈ ([5, 6, 7] : List Int) := by
  refine ⟨by decide, by decide, by decide, by decide, by decide⟩

/-- C3 (amended): for `minZoom = 5`, `maxZoom = 10` with zoom 5 and 6
unreachable and zoom 7 reachable, the ascending phase tests exactly
`5, 6, 7` in order (stopping at the first success); the max-zoom phase then
additionally probes zoom 10 (and possibly 9 and 8), so the tested set is
`{5, 6, 7}` together with those; the record is classified as having at least
one unreachable zoom, the error naming (at least) zooms 5 and 6. -/
theorem c3_zoom_widening (reach : Int → Bool)
    (h5 : reach 5 = false) (h6 : reach 6 = false) (h7 : reach 7 = true) :
    (runTmsProbe reach 5 10).probes.take 3 = [5, 6, 7] ∧
    (∀ z ∈ (runTmsProbe reach 5 10).probes.drop 3, z ∈ ([10, 9, 8] : List Int)) ∧
    (10 : Int) ∈ (runTmsProbe reach 5 10).probes ∧
    ∃ fl ts, classifyTms (runTmsProbe reach 5 10) = .someUnreachable fl ts ∧
      (5 : Int) ∈ fl ∧ (6 : Int) ∈ fl := by
  have hr1 : intRange (5 + 1) (min (5 + 4) 10) = [6, 7, 8] := by decide
  have hp1 : tmsPhase1 reach 5 10 = ⟨[5, 6, 7], [5, 6], [7]⟩ := by
    simp [tmsPhase1, test_zoom, tmsInit, probeLoop, hr1, h5, h6, h7]
  have hr2 : intRangeDesc 10 (max (10 - 4) 5) = [10, 9, 8, 7] := by decide
  rw [runTmsProbe, hp1]
  cases h10 : reach 10 with
  | true =>
    have h2 : tmsPhase2 reach 5 10 ⟨[5, 6, 7], [5, 6], [7]⟩ =
        ⟨[5, 6, 7, 10], [5, 6], [7, 10]⟩ := by
      simp [tmsPhase2, test_zoom, h10]
    rw [h2]
    exact ⟨by decide, by decide, by decide, ⟨[5, 6], [5, 6, 7, 10], by decide, by decide, by decide⟩⟩
  | false =>
    cases h9 : reach 9 with
    | true =>
      have h2 : tmsPhase2 reach 5 10 ⟨[5, 6, 7], [5, 6], [7]⟩ =
          ⟨[5, 6, 7, 10, 9], [5, 6, 10], [7, 9]⟩ := by
        simp [tmsPhase2, test_zoom, probeLoop, hr2, h10, h9]
      rw [h2]
      exact ⟨by decide, by decide, by decide,
        ⟨[5, 6, 10], [5, 6, 7, 9, 10], by decide, by decide, by decide⟩⟩
    | false =>
      cases h8 : reach 8 with
      | true =>
        have h2 : tmsPhase2 reach 5 10 ⟨[5, 6, 7], [5, 6], [7]⟩ =
            ⟨[5, 6, 7, 10, 9, 8], [5, 6, 10, 9], [7, 8]⟩ := by
          simp [tmsPhase2, test_zoom, probeLoop, hr2, h10, h9, h8]
        rw [h2]
        exact ⟨by decide, by decide, by decide,
          ⟨[5, 6, 9, 10], [5, 6, 7, 8, 9, 10], by decide, by decide, by decide⟩⟩
      | false =>
        have h2 : tmsPhase2 reach 5 10 ⟨[5, 6, 7], [5, 6], [7]⟩ =
            ⟨[5, 6, 7, 10, 9, 8], [5, 6, 10, 9, 8], [7]⟩ := by
          simp [tmsPhase2, test_zoom, probeLoop, hr2, h10, h9, h8]
        rw [h2]
        exact ⟨by decide, by decide, by decide,
          ⟨[5, 6, 8, 9, 10], [5, 6, 7, 8, 9, 10], by decide, by decide, by decide⟩⟩

/-- Witness for C3 (amended): the concrete reachable-at-7-and-10 server. -/
theorem c3_zoom_widening_witness :
    (runTmsProbe c3reach 5 10).probes.take 3 = [5, 6, 7] ∧
    (10 : Int) ∈ (runTmsProbe c3reach 5 10).probes :=
  ⟨(c3_zoom_widening c3reach (by decide) (by decide) (by decide)).1,
   (c3_zoom_widening c3reach (by decide) (by decide) (by decide)).2.2.1⟩
